import Mathlib

/-!
Verification of the CA Review Engine rule core.

The definitions below are a shallow embedding of the JavaScript source:
`src/scripts/popup.js` (compliance deriver, report assembly, usage counter)
and `src/background.js` (document validators, statutory reference table).
JavaScript numbers that can be non-finite (results of `parseFloat` and of
division) are modelled by `JNum`; fields that may be `undefined` on a
JavaScript object are modelled by `Option`.
-/

/-- Model of a JavaScript number as it is used by the source: either a finite
rational or one of the non-finite values `NaN`, `Infinity`, `-Infinity`. -/
inductive JNum where
  | nan
  | posInf
  | negInf
  | num (q : ℚ)
deriving DecidableEq, Repr

/-- JavaScript `v > c` for a possibly non-finite left operand and a finite
threshold: comparisons with `NaN` are false, `Infinity > c` is true. -/
def jGt (v : JNum) (c : ℚ) : Bool :=
  match v with
  | .nan => false
  | .posInf => true
  | .negInf => false
  | .num q => decide (c < q)

/-- JavaScript `v < c`: comparisons with `NaN` are false, `-Infinity < c`
is true. -/
def jLt (v : JNum) (c : ℚ) : Bool :=
  match v with
  | .nan => false
  | .posInf => false
  | .negInf => true
  | .num q => decide (q < c)

/-- JavaScript `p.f > c` where the property `f` may be absent (`undefined`):
`undefined > c` is false. -/
def jGtOpt (v : Option JNum) (c : ℚ) : Bool :=
  match v with
  | none => false
  | some w => jGt w c

/-- JavaScript division of finite operands: division by zero yields
`Infinity`, `-Infinity`, or `NaN` according to the sign of the numerator. -/
def jsDiv (a b : ℚ) : JNum :=
  if b = 0 then
    if 0 < a then .posInf else if a < 0 then .negInf else .nan
  else
    .num (a / b)

/-- JavaScript truthiness of a possibly absent boolean property:
`undefined` is falsy. -/
def truthy : Option Bool → Bool
  | none => false
  | some b => b

/-- Whether the second list is a prefix of the first argument list. -/
def isPref : List Char → List Char → Bool
  | [], _ => true
  | _ :: _, [] => false
  | a :: as, b :: bs => a == b && isPref as bs

/- Argument order: `isPref pat s` is true when `pat` is an initial segment
of `s`. -/

/-- Substring search over character lists, modelling JavaScript
`String.prototype.includes`. -/
def hasSubList (pat : List Char) : List Char → Bool
  | [] => pat.isEmpty
  | c :: rest => isPref pat (c :: rest) || hasSubList pat rest

/-- JavaScript `s.includes(pat)`. -/
def strContains (s pat : String) : Bool :=
  hasSubList pat.data s.data

/-- JavaScript `toLowerCase` on one character (ASCII range, which is all the
source compares against). -/
def jsToLowerChar (c : Char) : Char :=
  if 65 ≤ c.toNat && c.toNat ≤ 90 then Char.ofNat (c.toNat + 32) else c

/-- JavaScript `s.toLowerCase()`. -/
def jsToLower (s : String) : String :=
  String.mk (s.data.map jsToLowerChar)

/-- A client profile object as built by `handleProfileSubmit` and consumed by
the deriver functions.  `contribution` and `auditApplicable` are properties
that the form-submission path never sets (they read as `undefined`), hence
`Option`. -/
structure Profile where
  clientName : String
  entityType : String
  businessNature : String
  financialYear : String
  turnover : JNum
  gstStatus : String
  accountingMethod : String
  previousYearAvailable : Bool
  profileDate : String
  contribution : Option JNum
  auditApplicable : Option Bool
deriving DecidableEq, Repr

/-- The raw values read from the profile form by `handleProfileSubmit`
(`turnover` is already the result of `parseFloat`, so possibly `NaN`). -/
structure FormInputs where
  clientName : String
  entityType : String
  businessNature : String
  financialYear : String
  turnover : JNum
  gstStatus : String
  accountingMethod : String
  previousYearAvailable : Bool
deriving DecidableEq, Repr

/-- The `formData` object literal built in `handleProfileSubmit`
(src/scripts/popup.js, lines 126-136): it never sets a capital-contribution
field nor an `auditApplicable` field. -/
def buildFormData (i : FormInputs) (now : String) : Profile :=
  { clientName := i.clientName
    entityType := i.entityType
    businessNature := i.businessNature
    financialYear := i.financialYear
    turnover := i.turnover
    gstStatus := i.gstStatus
    accountingMethod := i.accountingMethod
    previousYearAvailable := i.previousYearAvailable
    profileDate := now
    contribution := none
    auditApplicable := none }

/-- `isAuditApplicable` (src/scripts/popup.js, lines 174-197), transcribed
branch for branch. -/
def isAuditApplicable (p : Profile) : Bool :=
  if p.entityType == "private" || p.entityType == "public" then
    true
  else if p.entityType == "llp" then
    jGt p.turnover 4000000 || jGtOpt p.contribution 2500000
  else if p.entityType == "partnership" then
    jGt p.turnover 10000000
  else if strContains (jsToLower p.businessNature) "profession" then
    jGt p.turnover 5000000
  else
    jGt p.turnover 10000000

/-- The audit-applicability rule as the specification words it: a first-match
decision list over the entity type, written independently of the source
transcription above so the two can be compared. -/
def auditApplicableSpec (p : Profile) : Bool :=
  if p.entityType = "private" ∨ p.entityType = "public" then
    true
  else if p.entityType = "llp" then
    jGt p.turnover 4000000 || jGtOpt p.contribution 2500000
  else if p.entityType = "partnership" then
    jGt p.turnover 10000000
  else if strContains (jsToLower p.businessNature) "profession" then
    jGt p.turnover 5000000
  else
    jGt p.turnover 10000000

/-- One conditional required-document entry: document name, justification,
and the element id used for its upload control. -/
structure CondDoc where
  name : String
  reason : String
  id : String
deriving DecidableEq, Repr

/-- The `docs` object built by `determineRequiredDocuments`. -/
structure RequiredDocs where
  mandatory : List String
  conditional : List CondDoc
deriving DecidableEq, Repr

/-- `determineRequiredDocuments` (src/scripts/popup.js, lines 199-242): the
mandatory triple plus conditional entries pushed in the source's order.  The
audit-report entry is guarded by the truthiness of the input object's
`auditApplicable` property. -/
def determineRequiredDocuments (p : Profile) : RequiredDocs :=
  { mandatory := ["balanceSheet", "profitLoss", "trialBalance"]
    conditional :=
      (if p.gstStatus == "registered" then
        [{ name := "GST Returns (GSTR-1, GSTR-3B)"
           reason := "GST registered entity"
           id := "gstReturns" }]
       else []) ++
      (if jGt p.turnover 5000000 then
        [{ name := "Bank Statements"
           reason := "Turnover exceeds ₹50 lakhs"
           id := "bankStatements" }]
       else []) ++
      (if p.previousYearAvailable then
        [{ name := "Previous Year Financials"
           reason := "For comparative analysis"
           id := "previousYear" }]
       else []) ++
      (if truthy p.auditApplicable then
        [{ name := "Audit Report"
           reason := "Audit applicable"
           id := "auditReport" }]
       else []) }

/-- The compliance-flags object.  The source initialises `audit: false` and
then overwrites it with `profile.auditApplicable`, which may be `undefined`,
so the field is an `Option Bool`. -/
structure Compliance where
  gst : Bool
  incomeTax : Bool
  tds : Bool
  audit : Option Bool
  mca : Bool
deriving DecidableEq, Repr

/-- `determineCompliance` (src/scripts/popup.js, lines 244-259). -/
def determineCompliance (p : Profile) : Compliance :=
  { gst := p.gstStatus == "registered"
    incomeTax := true
    tds := jGt p.turnover 10000000
    audit := p.auditApplicable
    mca := ["private", "public", "llp"].contains p.entityType }

/-- The analyzed profile returned by `analyzeClientProfile`: the spread copy
of the form data (with `auditApplicable` now set) plus the two derived
objects. -/
structure AnalyzedProfile where
  profile : Profile
  requiredDocuments : RequiredDocs
  complianceRequirements : Compliance
deriving DecidableEq, Repr

/-- `analyzeClientProfile` (src/scripts/popup.js, lines 159-172).  Note the
source sets `profile.auditApplicable` on the spread copy but passes the
original `formData` object to `determineRequiredDocuments` and
`determineCompliance`, so those two see `auditApplicable` as `undefined`. -/
def analyzeClientProfile (formData : Profile) : AnalyzedProfile :=
  { profile := { formData with auditApplicable := some (isAuditApplicable formData) }
    requiredDocuments := determineRequiredDocuments formData
    complianceRequirements := determineCompliance formData }

/-- The derive operation as observed by the caller of
`analyzeClientProfile`: the source wraps the call in no validation and no
try/catch, so every input produces a result and no error is ever raised. -/
def deriveResult (p : Profile) : Except String AnalyzedProfile :=
  Except.ok (analyzeClientProfile p)

/-- The profile-field well-formedness condition stated by the specification
(turnover a finite non-negative number, entity type inside the fixed
enumeration), written from the spec's words for comparison with what the
code actually checks. -/
def specEntityTypes : List String :=
  ["individual", "proprietorship", "partnership", "llp", "private", "public", "other"]

/-- Spec-side predicate: the profile is well formed. -/
def specWellFormed (p : Profile) : Bool :=
  (match p.turnover with
   | JNum.num q => decide (0 ≤ q)
   | _ => false) && specEntityTypes.contains p.entityType

/-- JavaScript `Math.abs` on a finite number. -/
def jsAbs (q : ℚ) : ℚ :=
  if q < 0 then -q else q

/-- Prior-year figures referenced by the balance-sheet validator. -/
structure BSPrev where
  totalAssets : ℚ
deriving DecidableEq, Repr

/-- The structured balance-sheet summary consumed by `validateBalanceSheet`
(finite numeric aggregates, per the data-model invariant). -/
structure BSData where
  totalAssets : ℚ
  totalLiabilities : ℚ
  equity : ℚ
  currentAssets : ℚ
  currentLiabilities : ℚ
  negativeAssets : List String
  previousYear : Option BSPrev
deriving DecidableEq, Repr

/-- Errors pushed by `validateBalanceSheet`. -/
inductive BSError where
  | notBalanced
deriving DecidableEq, Repr

/-- Warnings pushed by `validateBalanceSheet`, carrying the values the
source interpolates into the message strings. -/
inductive BSWarning where
  | negativeAssetAccounts (names : List String)
  | lowCurrentRatio (ratio : JNum)
deriving DecidableEq, Repr

/-- Informational findings pushed by `validateBalanceSheet`. -/
inductive BSInfo where
  | assetChange (pct : JNum)
deriving DecidableEq, Repr

/-- The results object of the balance-sheet validator. -/
structure BSResults where
  valid : Bool
  errors : List BSError
  warnings : List BSWarning
  info : List BSInfo
deriving DecidableEq, Repr

/-- Multiplication of a possibly non-finite value by 100 (the `* 100` in the
year-over-year percentage). -/
def jMul100 : JNum → JNum
  | JNum.nan => JNum.nan
  | JNum.posInf => JNum.posInf
  | JNum.negInf => JNum.negInf
  | JNum.num q => JNum.num (q * 100)

/-- JavaScript `Math.abs(v) > c` for possibly non-finite `v`: absolute value
of either infinity exceeds any finite threshold, `NaN` compares false. -/
def jAbsGt (v : JNum) (c : ℚ) : Bool :=
  match v with
  | JNum.nan => false
  | JNum.posInf => true
  | JNum.negInf => true
  | JNum.num q => decide (c < jsAbs q)

/-- JavaScript `toFixed(2)` rounding on the finite case (closest multiple of
1/100, ties toward the larger value), as displayed in the liquidity
message. -/
def jsRound2 (q : ℚ) : ℚ :=
  (⌊q * 100 + 1 / 2⌋ : ℚ) / 100

/-- `toFixed(2)` display value of a possibly non-finite ratio. -/
def jRound2 : JNum → JNum
  | JNum.num q => JNum.num (jsRound2 q)
  | v => v

/-- `validateBalanceSheet` (src/background.js, lines 165-199), transcribed
check for check; the current-ratio division is JavaScript division, which on
a zero divisor yields a non-finite value rather than an error. -/
def validateBalanceSheet (d : BSData) : BSResults :=
  let mismatch := decide (1 / 100 < jsAbs (d.totalAssets - (d.totalLiabilities + d.equity)))
  let errors := if mismatch then [BSError.notBalanced] else []
  let warnNeg :=
    if d.negativeAssets.length > 0 then
      [BSWarning.negativeAssetAccounts d.negativeAssets]
    else []
  let currentRatio := jsDiv d.currentAssets d.currentLiabilities
  let warnRatio :=
    if jLt currentRatio 1 then [BSWarning.lowCurrentRatio (jRound2 currentRatio)] else []
  let info :=
    match d.previousYear with
    | none => []
    | some py =>
      let assetChange := jMul100 (jsDiv (d.totalAssets - py.totalAssets) py.totalAssets)
      if jAbsGt assetChange 20 then [BSInfo.assetChange assetChange] else []
  { valid := !mismatch
    errors := errors
    warnings := warnNeg ++ warnRatio
    info := info }

/-- Recogniser for the liquidity (low current ratio) warning. -/
def isLiquidity : BSWarning → Bool
  | BSWarning.lowCurrentRatio _ => true
  | _ => false

/-- Number of liquidity findings in a balance-sheet result. -/
def liquidityCount (r : BSResults) : ℕ :=
  (r.warnings.filter isLiquidity).length

/-- One expense line item of the profit-and-loss summary. -/
structure Expense where
  description : String
  amount : ℚ
  paymentMode : String
deriving DecidableEq, Repr

/-- The structured profit-and-loss summary consumed by
`validateProfitLoss`. -/
structure PLData where
  revenue : ℚ
  directCosts : ℚ
  grossProfit : ℚ
  operatingExpenses : ℚ
  otherExpenses : ℚ
  otherIncome : ℚ
  netProfit : ℚ
  expenses : List Expense
deriving DecidableEq, Repr

/-- Errors pushed by `validateProfitLoss`. -/
inductive PLError where
  | grossProfitMismatch
  | netProfitMismatch
deriving DecidableEq, Repr

/-- Warnings pushed by `validateProfitLoss`, carrying the interpolated
values. -/
inductive PLWarning where
  | disallowable (description : String) (amount : ℚ)
  | largeCash (count : ℕ)
deriving DecidableEq, Repr

/-- The results object of the profit-and-loss validator. -/
structure PLResults where
  valid : Bool
  errors : List PLError
  warnings : List PLWarning
deriving DecidableEq, Repr

/-- The keyword list of the disallowable-expenses check. -/
def disallowableKeywords : List String :=
  ["personal", "penalty", "fine", "political donation"]

/-- The predicate of the cash-payment filter in `validateProfitLoss`
(payment mode `cash` and amount strictly above 10,000). -/
def isLargeCashExpense (e : Expense) : Bool :=
  e.paymentMode == "cash" && decide ((10000 : ℚ) < e.amount)

/-- `validateProfitLoss` (src/background.js, lines 202-239), transcribed
check for check. -/
def validateProfitLoss (d : PLData) : PLResults :=
  let errGP :=
    if decide (1 / 100 < jsAbs ((d.revenue - d.directCosts) - d.grossProfit)) then
      [PLError.grossProfitMismatch]
    else []
  let errNP :=
    if decide (1 / 100 <
        jsAbs ((d.grossProfit - d.operatingExpenses - d.otherExpenses + d.otherIncome) - d.netProfit)) then
      [PLError.netProfitMismatch]
    else []
  let warnDisallow :=
    (d.expenses.filter (fun e =>
        disallowableKeywords.any (fun k => strContains (jsToLower e.description) k))).map
      (fun e => PLWarning.disallowable e.description e.amount)
  let largeCashPayments := d.expenses.filter isLargeCashExpense
  let warnCash :=
    if largeCashPayments.length > 0 then [PLWarning.largeCash largeCashPayments.length] else []
  { valid := true
    errors := errGP ++ errNP
    warnings := warnDisallow ++ warnCash }

/-- Recogniser for the cash-payment warning. -/
def isLargeCash : PLWarning → Bool
  | PLWarning.largeCash _ => true
  | _ => false

/-- A value in the statutory reference table: numeric threshold or text. -/
inductive RefValue where
  | num (q : ℚ)
  | str (s : String)
deriving DecidableEq, Repr

/-- One keyed group of reference values (e.g. `tax-audit-threshold`). -/
abbrev RefEntry := List (String × RefValue)

/-- One source category of the reference table: keyed groups of values. -/
abbrev RefCategory := List (String × RefEntry)

/-- The `approvedSources` map of `fetchStatutoryData`
(src/background.js, lines 71-76). -/
def approvedSources : List (String × String) :=
  [("income-tax", "https://www.incometax.gov.in"),
   ("gst", "https://www.gst.gov.in"),
   ("mca", "https://www.mca.gov.in"),
   ("icai", "https://www.icai.org")]

/-- The `data` table of `getStatutoryDataSimulated`
(src/background.js, lines 89-143), transcribed entry by entry.  Note it has
no entry for the approved source `icai`. -/
def statutoryData : List (String × RefCategory) :=
  [("income-tax",
    [("tax-audit-threshold",
      [("business", RefValue.num 10000000),
       ("profession", RefValue.num 5000000),
       ("presumptive44AD", RefValue.num 20000000),
       ("lastUpdated", RefValue.str "2024-04-01")]),
     ("itr-due-dates",
      [("nonAudit", RefValue.str "2025-07-31"),
       ("audit", RefValue.str "2025-10-31"),
       ("transferPricing", RefValue.str "2025-11-30")]),
     ("tds-rates",
      [("salary", RefValue.str "30% above ₹10L"),
       ("contractorIndividual", RefValue.str "1%"),
       ("contractorCompany", RefValue.str "2%"),
       ("professionalFees", RefValue.str "10%"),
       ("rent", RefValue.str "10%")])]),
   ("gst",
    [("registration-threshold",
      [("goods", RefValue.num 4000000),
       ("services", RefValue.num 2000000),
       ("specialCategory", RefValue.num 1000000),
       ("lastUpdated", RefValue.str "2024-04-01")]),
     ("gst-rates",
      [("nil", RefValue.str "Essential items"),
       ("5%", RefValue.str "Common use items"),
       ("12%", RefValue.str "Standard items"),
       ("18%", RefValue.str "Most goods and services"),
       ("28%", RefValue.str "Luxury and sin goods")]),
     ("return-types",
      [("GSTR-1", RefValue.str "Outward supplies"),
       ("GSTR-3B", RefValue.str "Summary return"),
       ("GSTR-9", RefValue.str "Annual return"),
       ("GSTR-9C", RefValue.str "Reconciliation statement")])]),
   ("mca",
    [("company-filings",
      [("Form AOC-4", RefValue.str "Financial statements - Annual"),
       ("Form MGT-7", RefValue.str "Annual return"),
       ("Form ADT-1", RefValue.str "Appointment of auditor"),
       ("Form DIR-3 KYC", RefValue.str "Director KYC")]),
     ("llp-filings",
      [("Form 8", RefValue.str "Statement of account - Annual"),
       ("Form 11", RefValue.str "Annual return")])])]

/-- `getStatutoryDataSimulated` (src/background.js, lines 88-146): returns
the whole source category, ignoring the query, and falls back to the empty
object (`data[source] || \x7b\x7d`) on a missing category. -/
def getStatutoryDataSimulated (source : String) (_query : String) : RefCategory :=
  (statutoryData.lookup source).getD []

/-- `fetchStatutoryData` (src/background.js, lines 70-85): rejects sources
outside the approved map with an error, otherwise returns the simulated
data. -/
def fetchStatutoryData (source query : String) : Except String RefCategory :=
  if (approvedSources.lookup source).isSome then
    Except.ok (getStatutoryDataSimulated source query)
  else
    Except.error "Unauthorized data source"

/-- The usage cap (`this.maxUsage`, src/scripts/popup.js, line 10). -/
def maxUsage : ℕ := 99

/-- One invocation of `generateReport` (src/scripts/popup.js, lines 531-556)
as a transition on the persisted usage counter: at or above the cap the
request is refused and the counter is untouched; otherwise a report is
produced and the counter is incremented by one.  The returned boolean is
whether a report was produced. -/
def generateReportStep (c : ℕ) : ℕ × Bool :=
  if c ≥ maxUsage then (c, false) else (c + 1, true)

/-- `checkUsageLimit` result fields (src/background.js, lines 266-277);
`remaining` is an integer because the subtraction is JavaScript
subtraction. -/
structure UsageStatus where
  current : ℕ
  max : ℕ
  remaining : ℤ
  exceeded : Bool
deriving DecidableEq, Repr

/-- `checkUsageLimit` (src/background.js, lines 266-277). -/
def checkUsageLimit (usageCount : ℕ) : UsageStatus :=
  { current := usageCount
    max := maxUsage
    remaining := (maxUsage : ℤ) - (usageCount : ℤ)
    exceeded := usageCount ≥ maxUsage }

/-- Usage-counter states reachable in the popup's lifecycle: the counter is
initialised to 0 on install and changes only through `generateReportStep`. -/
inductive ReachableUsage : ℕ → Prop where
  | init : ReachableUsage 0
  | step (c : ℕ) : ReachableUsage c → ReachableUsage (generateReportStep c).1

/-- One section of the assembled report: a title plus either free prose or a
bullet list. -/
structure ReportSection where
  title : String
  content : Option String
  points : Option (List String)
deriving DecidableEq, Repr

/-- The assembled report object returned by `createReport`. -/
structure Report where
  title : String
  clientName : String
  financialYear : String
  reportDate : String
  sections : List ReportSection
  disclaimer : String
deriving DecidableEq, Repr

/-- `createReport` (src/scripts/popup.js, lines 558-619), transcribed string
for string.  The only use of the current time is the `reportDate` field
(`now.toLocaleDateString`), modelled as the `now` argument. -/
def createReport (cp : AnalyzedProfile) (now : String) : Report :=
  { title := "Chartered Accountant Review Report"
    clientName := cp.profile.clientName
    financialYear := cp.profile.financialYear
    reportDate := now
    sections :=
      [{ title := "1. Executive Summary"
         content := some ("This report presents a rule-based review of financial documents for "
           ++ cp.profile.clientName ++ " for the financial year "
           ++ cp.profile.financialYear
           ++ ". The review is based on statutory requirements, accounting standards, and tax provisions.")
         points := none },
       { title := "2. Key Observations"
         content := none
         points := some
           ["Balance sheet structurally verified with no mathematical errors",
            "Gross profit margin shows improvement from previous year",
            "GST turnover mismatch identified requiring reconciliation",
            "Debtor collection period exceeds industry standards"] },
       { title := "3. Items Requiring Clarification"
         content := none
         points := some
           ["Significant increase in current liabilities (35% YoY)",
            "Personal vehicle expenses requiring disallowance computation",
            "Cash expenses exceeding statutory limits",
            "ITC reconciliation with GSTR-2B pending"] },
       { title := "4. High-Risk Areas"
         content := none
         points := some
           ["GST turnover mismatch of ₹2,50,000",
            "Potential Section 40A(3) disallowance on cash payments",
            "Personal expense disallowance may impact tax liability"] },
       { title := "5. Compliance Status"
         content := none
         points := some
           ["Tax Audit: " ++ (if truthy cp.profile.auditApplicable then "Applicable" else "Not Applicable"),
            "GST Filing: " ++ (if cp.profile.gstStatus == "registered" then "Regular" else "Not Applicable"),
            "Income Tax Return: Filing required",
            "MCA Filings: " ++ (if cp.complianceRequirements.mca then "Applicable" else "Not Applicable")] },
       { title := "6. Next Steps"
         content := none
         points := some
           ["Obtain clarifications on flagged items",
            "Reconcile GST returns with books of accounts",
            "Compute disallowances under Income Tax Act",
            "Prepare tax audit report if applicable",
            "File returns within statutory due dates"] }]
    disclaimer := "This report is based on rule-based review and publicly available statutory information. Final decisions must be taken by a qualified Chartered Accountant. This report does not constitute audit, assurance, or legal opinion." }

/-- Erase the report-date field, for comparing reports up to the date. -/
def eraseReportDate (r : Report) : Report :=
  { r with reportDate := "" }

/-- The end-to-end scenario profile of the specification: a partnership with
declared turnover 12,000,000, GST registered, previous year available. -/
def scenarioProfile : Profile :=
  { clientName := "Acme Traders"
    entityType := "partnership"
    businessNature := "trading"
    financialYear := "2024-25"
    turnover := JNum.num 12000000
    gstStatus := "registered"
    accountingMethod := "mercantile"
    previousYearAvailable := true
    profileDate := "2025-04-01"
    contribution := none
    auditApplicable := none }

/-- A private-company profile (audit mandatory under the first rule). -/
def privateCoProfile : Profile :=
  { clientName := "Apex Pvt Ltd"
    entityType := "private"
    businessNature := "manufacturing"
    financialYear := "2024-25"
    turnover := JNum.num 0
    gstStatus := "unregistered"
    accountingMethod := "mercantile"
    previousYearAvailable := false
    profileDate := "2025-04-01"
    contribution := none
    auditApplicable := none }

/-- A malformed profile: `parseFloat` of the turnover field returned
`NaN`. -/
def malformedProfile : Profile :=
  { clientName := "Broken Input"
    entityType := "private"
    businessNature := "trading"
    financialYear := "2024-25"
    turnover := JNum.nan
    gstStatus := "unregistered"
    accountingMethod := "mercantile"
    previousYearAvailable := false
    profileDate := "2025-04-01"
    contribution := none
    auditApplicable := none }

/-- Form inputs for an LLP with turnover 5,000,000. -/
def llpInputs : FormInputs :=
  { clientName := "Delta LLP"
    entityType := "llp"
    businessNature := "consulting"
    financialYear := "2024-25"
    turnover := JNum.num 5000000
    gstStatus := "registered"
    accountingMethod := "mercantile"
    previousYearAvailable := false }

/-- C1: audit applicability is decided by the first matching rule in the
fixed order — private/public company unconditionally true; LLP iff turnover
strictly above 4,000,000 or contribution strictly above 2,500,000;
partnership iff turnover strictly above 10,000,000; otherwise the
profession threshold 5,000,000 when the nature-of-business text
case-insensitively contains "profession", else the business threshold
10,000,000.  The source transcription `isAuditApplicable` agrees with the
specification's decision list `auditApplicableSpec` on every profile. -/
theorem audit_rule_matches_spec (p : Profile) :
    isAuditApplicable p = auditApplicableSpec p := by
  unfold isAuditApplicable auditApplicableSpec
  by_cases h1 : p.entityType = "private" <;>
    by_cases h2 : p.entityType = "public" <;>
      by_cases h3 : p.entityType = "llp" <;>
        by_cases h4 : p.entityType = "partnership" <;>
          simp [h1, h2, h3, h4]

/-- C10: the profile-submission path never sets a capital-contribution
field, so in the LLP branch the contribution comparison is always false and
LLP audit applicability is decided by the turnover condition alone. -/
theorem submitted_profile_llp_audit_by_turnover (i : FormInputs) (now : String) :
    (buildFormData i now).contribution = none ∧
    ((buildFormData i now).entityType = "llp" →
      isAuditApplicable (buildFormData i now) = jGt (buildFormData i now).turnover 4000000) := by
  refine ⟨rfl, fun h => ?_⟩
  unfold isAuditApplicable
  simp [buildFormData] at h ⊢
  simp [h, jGtOpt]

/-- Witness for C10 at a concrete LLP form submission. -/
theorem submitted_profile_llp_audit_by_turnover_witness :
    (buildFormData llpInputs "2025-04-01").contribution = none ∧
    isAuditApplicable (buildFormData llpInputs "2025-04-01") =
      jGt (buildFormData llpInputs "2025-04-01").turnover 4000000 :=
  ⟨(submitted_profile_llp_audit_by_turnover llpInputs "2025-04-01").1,
   (submitted_profile_llp_audit_by_turnover llpInputs "2025-04-01").2 rfl⟩

/-- C2 (failing input): on the specification's own end-to-end scenario —
partnership, turnover 12,000,000, GST registered, previous year available —
audit is applicable, yet the derived conditional document list is only
three entries (GST returns, bank statements, previous-year financials) with
no audit-report entry: `analyzeClientProfile` computes `auditApplicable` on
the spread copy but hands the original form data, whose `auditApplicable`
is still undefined, to `determineRequiredDocuments`. -/
theorem required_docs_audit_entry_dropped :
    isAuditApplicable scenarioProfile = true ∧
    (analyzeClientProfile scenarioProfile).profile.auditApplicable = some true ∧
    (analyzeClientProfile scenarioProfile).requiredDocuments.mandatory =
      ["balanceSheet", "profitLoss", "trialBalance"] ∧
    (analyzeClientProfile scenarioProfile).requiredDocuments.conditional.map CondDoc.id =
      ["gstReturns", "bankStatements", "previousYear"] := by
  refine ⟨rfl, rfl, rfl, rfl⟩

/-- C3 (failing input): for a private company the audit-applicability result
is true, but the derived compliance flags carry `audit = undefined` (falsy),
because `determineCompliance` also receives the original form data; the
other four flags are produced as claimed. -/
theorem compliance_audit_flag_lost :
    isAuditApplicable privateCoProfile = true ∧
    (analyzeClientProfile privateCoProfile).profile.auditApplicable = some true ∧
    (analyzeClientProfile privateCoProfile).complianceRequirements.audit = none ∧
    (analyzeClientProfile privateCoProfile).complianceRequirements.incomeTax = true ∧
    (analyzeClientProfile privateCoProfile).complianceRequirements.gst = false ∧
    (analyzeClientProfile privateCoProfile).complianceRequirements.tds = false ∧
    (analyzeClientProfile privateCoProfile).complianceRequirements.mca = true := by
  refine ⟨rfl, rfl, rfl, rfl, rfl, rfl, rfl⟩

/-- The JavaScript comparison `currentRatio < 1` holds exactly when either
the division was by a nonzero divisor and the rational ratio is below one,
or the divisor was zero with a negative numerator (giving `-Infinity`). -/
lemma jLt_jsDiv_one_iff (a b : ℚ) :
    jLt (jsDiv a b) 1 = true ↔ ((b = 0 ∧ a < 0) ∨ (b ≠ 0 ∧ a / b < 1)) := by
  unfold jsDiv jLt
  by_cases hb : b = 0
  · subst hb
    by_cases h1 : (0:ℚ) < a
    · simp [h1, not_lt.mpr h1.le, asymm h1]
    · by_cases h2 : a < 0
      · simp [h1, h2]
      · simp [h1, h2]
  · simp [hb]

/-- The negative-assets warning is never a liquidity finding. -/
lemma filter_isLiquidity_neg (c : Prop) [Decidable c] (l : List String) :
    (if c then [BSWarning.negativeAssetAccounts l] else []).filter isLiquidity = [] := by
  split <;> simp [isLiquidity]

/-- A balanced sheet with zero current liabilities and positive current
assets. -/
def zeroCLSheet : BSData :=
  { totalAssets := 1000
    totalLiabilities := 600
    equity := 400
    currentAssets := 100
    currentLiabilities := 0
    negativeAssets := []
    previousYear := none }

/-- C5 (counterexample): with `currentLiabilities = 0` (and non-negative
current assets) the validator emits NO liquidity finding at all — the
JavaScript division yields `Infinity`, the comparison `Infinity < 1` is
false, and the warning branch is skipped — contrary to the claim that the
undefined ratio is flagged as RequiresClarification. -/
theorem liquidity_zero_denominator_no_finding :
    zeroCLSheet.currentLiabilities = 0 ∧
    (validateBalanceSheet zeroCLSheet).errors = [] ∧
    liquidityCount (validateBalanceSheet zeroCLSheet) = 0 := by
  refine ⟨rfl, ?_, ?_⟩
  · simp [validateBalanceSheet, zeroCLSheet, jsAbs]
    norm_num
  · simp [validateBalanceSheet, zeroCLSheet, liquidityCount, isLiquidity, jsAbs, jsDiv, jLt]

/-- C5 (amended): the current-ratio check never raises an error; it emits
exactly one liquidity finding — carrying the ratio rounded to two
decimals — precisely when the divisor is nonzero and the ratio is below
one, or the divisor is zero with strictly negative current assets (the
`-Infinity` case); in every other zero-divisor case the non-finite ratio
compares false against 1 and no finding is emitted. -/
theorem liquidity_check_characterised (d : BSData) :
    (validateBalanceSheet d).warnings.filter isLiquidity =
      (if (d.currentLiabilities = 0 ∧ d.currentAssets < 0) ∨
          (d.currentLiabilities ≠ 0 ∧ d.currentAssets / d.currentLiabilities < 1)
       then [BSWarning.lowCurrentRatio (jRound2 (jsDiv d.currentAssets d.currentLiabilities))]
       else []) := by
  unfold validateBalanceSheet
  simp only [List.filter_append]
  rw [filter_isLiquidity_neg]
  by_cases h : (d.currentLiabilities = 0 ∧ d.currentAssets < 0) ∨
      (d.currentLiabilities ≠ 0 ∧ d.currentAssets / d.currentLiabilities < 1)
  · rw [if_pos ((jLt_jsDiv_one_iff _ _).mpr h), if_pos h]
    simp [isLiquidity]
  · rw [if_neg (fun hc => h ((jLt_jsDiv_one_iff _ _).mp hc)), if_neg h]
    simp

/-- C4 (counterexample): a profile whose turnover parsed to `NaN` is
malformed under the specification's well-formedness condition, yet the
derive operation succeeds on it — `analyzeClientProfile` contains no
validation and no error path. -/
theorem derive_accepts_malformed_profile :
    specWellFormed malformedProfile = false ∧
    (deriveResult malformedProfile).isOk = true :=
  ⟨rfl, rfl⟩

/-- C4 (amended): the derive operation never fails — it performs no input
validation and raises no `InvalidProfile` error on any profile; a malformed
`NaN` turnover is silently carried through, making every turnover
comparison false (for instance the TDS flag). -/
theorem derive_total_no_validation (p : Profile) :
    (deriveResult p).isOk = true ∧
    (p.turnover = JNum.nan →
      (analyzeClientProfile p).complianceRequirements.tds = false) := by
  refine ⟨rfl, fun h => ?_⟩
  simp [analyzeClientProfile, determineCompliance, h, jGt]

/-- Witness for C4's amended theorem at the concrete malformed profile. -/
theorem derive_total_no_validation_witness :
    (deriveResult malformedProfile).isOk = true ∧
    (analyzeClientProfile malformedProfile).complianceRequirements.tds = false :=
  ⟨(derive_total_no_validation malformedProfile).1,
   (derive_total_no_validation malformedProfile).2 rfl⟩

/-- Disallowable-expense warnings are never the cash-payment warning. -/
lemma filter_isLargeCash_disallow (l : List Expense) :
    (l.map (fun e => PLWarning.disallowable e.description e.amount)).filter isLargeCash = [] := by
  induction l with
  | nil => rfl
  | cons a t ih => simp [isLargeCash, ih]

/-- The specification's cash-payment example: three cash line items of
5,000 / 15,000 / 20,000. -/
def cashExample : PLData :=
  { revenue := 100000
    directCosts := 60000
    grossProfit := 40000
    operatingExpenses := 10000
    otherExpenses := 0
    otherIncome := 0
    netProfit := 30000
    expenses :=
      [{ description := "Office supplies", amount := 5000, paymentMode := "cash" },
       { description := "Equipment repair", amount := 15000, paymentMode := "cash" },
       { description := "Vendor payment", amount := 20000, paymentMode := "cash" }] }

/-- C6: the profit-and-loss review produces exactly one cash-payment
RequiresClarification finding when at least one expense line item has
payment mode "cash" and amount strictly above 10,000, reporting the count
of such items, and produces none otherwise; on the specification's example
(cash amounts 5,000 / 15,000 / 20,000) the single finding reports
count 2. -/
theorem cash_payment_single_finding :
    (∀ d : PLData,
      (validateProfitLoss d).warnings.filter isLargeCash =
        (if (d.expenses.filter isLargeCashExpense).length = 0 then []
         else [PLWarning.largeCash (d.expenses.filter isLargeCashExpense).length])) ∧
    (validateProfitLoss cashExample).warnings = [PLWarning.largeCash 2] := by
  refine ⟨fun d => ?_, rfl⟩
  unfold validateProfitLoss
  simp only [List.filter_append, filter_isLargeCash_disallow, List.nil_append]
  by_cases h : (d.expenses.filter isLargeCashExpense).length = 0
  · simp [h]
  · have hpos : 0 < (d.expenses.filter isLargeCashExpense).length := Nat.pos_of_ne_zero h
    simp [h, hpos, isLargeCash]

/-- C7: report assembly is pure and deterministic — two invocations on the
same analyzed profile agree on every field except `reportDate`, which is
exactly the supplied date. -/
theorem report_assembly_pure (cp : AnalyzedProfile) (d₁ d₂ : String) :
    eraseReportDate (createReport cp d₁) = eraseReportDate (createReport cp d₂) ∧
    (createReport cp d₁).reportDate = d₁ :=
  ⟨rfl, rfl⟩

/-- C8: the usage counter starts at 0 and is only changed by
`generateReportStep`, which refuses (no increment, no report) at or above
the cap 99 and otherwise increments by exactly one; consequently every
reachable counter value lies in 0..99. -/
theorem usage_counter_invariant :
    (∀ c, ReachableUsage c → c ≤ 99) ∧
    (∀ c, 99 ≤ c → generateReportStep c = (c, false)) ∧
    (∀ c, c < 99 → generateReportStep c = (c + 1, true)) := by
  refine ⟨?_, ?_, ?_⟩
  · intro c h
    induction h with
    | init => decide
    | step c' h' ih =>
      by_cases hc : c' ≥ maxUsage
      · simp only [generateReportStep, if_pos hc]
        exact ih
      · simp only [generateReportStep, hc, if_false, if_neg hc]
        unfold maxUsage at hc
        omega
  · intro c hc
    simp [generateReportStep, maxUsage, hc]
  · intro c hc
    have : ¬ c ≥ maxUsage := by unfold maxUsage; omega
    simp [generateReportStep, this]

/-- Witness for C8 at concrete counter values: the initial state is
reachable and within the cap, the step at 99 refuses, the step at 98
increments to 99. -/
theorem usage_counter_invariant_witness :
    (0 : ℕ) ≤ 99 ∧ generateReportStep 99 = (99, false) ∧
    generateReportStep 98 = (99, true) :=
  ⟨usage_counter_invariant.1 0 ReachableUsage.init,
   usage_counter_invariant.2.1 99 (by omega),
   usage_counter_invariant.2.2 98 (by omega)⟩

/-- C9 (counterexample): `icai` is an approved source with no entry in the
statutory table, and the lookup returns the empty table wrapped in success
instead of an error or NotFound — the miss is silently defaulted by
`data[source] || ...`. -/
theorem reference_lookup_miss_returns_empty :
    (statutoryData.lookup "icai") = none ∧
    (approvedSources.lookup "icai").isSome = true ∧
    fetchStatutoryData "icai" "tax-audit-threshold" = Except.ok [] :=
  ⟨rfl, rfl, rfl⟩

/-- C9 (amended): only unknown sources are rejected (with an error); for an
approved source the entire category table is returned with the query key
ignored, and a missing category — the approved source `icai` — silently
yields the empty table rather than an error or NotFound. -/
theorem reference_lookup_behaviour (source q₁ q₂ : String) :
    fetchStatutoryData source q₁ = fetchStatutoryData source q₂ ∧
    fetchStatutoryData "icai" q₁ = Except.ok [] ∧
    fetchStatutoryData "sebi" q₁ = Except.error "Unauthorized data source" :=
  ⟨rfl, rfl, rfl⟩
